import Mathlib

/-!
Verification of the mol* plugin sources against their specification.

The definitions below are a shallow embedding of the TypeScript sources:
* `src/mol-plugin/behavior/dynamic/custom-props/rcsb/assembly-symmetry.ts`
* `src/mol-model/volume/formats/ccp4.ts`
* `src/mol-model/structure/query/properties.ts`
* the `Model.getCenter` utilities and the superposition controls.

Asynchronous tasks are modelled by their final outcome; a JavaScript throw is
modelled as `Except.error`.  Machine floating point numbers are modelled as
exact rationals (and reals where π or square roots occur).
-/

/-! ## RCSB assembly symmetry behavior
Embedding of `assembly-symmetry.ts`. -/

/-- One record of the RCSB assembly-symmetry custom property value (the
fields destructured by the transform: `type`, `kind`, `symbol`). -/
structure SymmetryEntry where
  type : String
  kind : String
  symbol : String
deriving DecidableEq

/-- Outcome of the provider as observed by the transform: `Except.error` when
`AssemblySymmetryProvider.attach` threw, otherwise the cached value returned by
`AssemblySymmetryProvider.get(a.data).value` (which may be `undefined`,
modelled as `none`). -/
abbrev ProviderOutcome := Except String (Option (List SymmetryEntry))

/-- Output object of the `AssemblySymmetry3D` transform: either the sentinel
`StateObject.Null` or a `Shape.Representation3D` with its label and
description metadata. -/
inductive ApplyOutput where
  | nullObject
  | representation3D (label : String) (description : String)
deriving DecidableEq

/-- The JavaScript error raised by destructuring
`assemblySymmetry![params.symmetryIndex]` when the index is out of range. -/
def destructureError : String :=
  "TypeError: cannot destructure property of undefined"

/-- Embedding of `AssemblySymmetry3D.apply` (assembly-symmetry.ts:93-105):
attach the provider (a throw propagates), read the cached value, return
`StateObject.Null` when the value is missing or has length 0, otherwise build
the representation and return a `Shape.Representation3D` labelled by the
entry at `params.symmetryIndex`. -/
def applyAssemblySymmetry3D (provider : ProviderOutcome) (symmetryIndex : Nat) :
    Except String ApplyOutput :=
  match provider with
  | .error e => .error e
  | .ok value =>
    match value with
    | none => .ok .nullObject
    | some assemblySymmetry =>
      if assemblySymmetry.length = 0 then .ok .nullObject
      else
        match assemblySymmetry[symmetryIndex]? with
        | none => .error destructureError
        | some s => .ok (.representation3D s.kind (s.type ++ " (" ++ s.symbol ++ ")"))

/-- The mutable metadata of the transform's previous output `b` that
`update` refreshes in place (`b.label`, `b.description`). -/
structure Representation3DState where
  label : String
  description : String
deriving DecidableEq

/-- Result signal of a transform update (`StateTransformer.UpdateResult`);
`updated` carries the refreshed output state. -/
inductive UpdateSignal where
  | unchanged
  | updated (b : Representation3DState)
  | recreate
deriving DecidableEq

/-- Embedding of `AssemblySymmetry3D.update` (assembly-symmetry.ts:106-120):
attach the provider, read its cached value; when the value is missing or has
length 0 return `Recreate`; otherwise refresh the representation, set
`b.label`/`b.description` from the entry at `newParams.symmetryIndex` and
return `Updated`.  An out-of-range index makes the destructuring throw. -/
def updateAssemblySymmetry3D (provider : ProviderOutcome)
    (b : Representation3DState) (symmetryIndex : Nat) :
    Except String UpdateSignal :=
  match provider with
  | .error e => .error e
  | .ok value =>
    match value with
    | none => .ok .recreate
    | some assemblySymmetry =>
      if assemblySymmetry.length = 0 then .ok .recreate
      else
        match assemblySymmetry[symmetryIndex]? with
        | none => .error destructureError
        | some s =>
          .ok (.updated { b with label := s.kind,
                                 description := s.type ++ " (" ++ s.symbol ++ ")" })

/-- Observable outcome of the `InitAssemblySymmetry3D` state action: the log
messages it emitted through `plugin.log.error` and whether it applied the
`AssemblySymmetry3D` transform node to the state tree. -/
structure InitActionResult where
  log : List String
  appliedTransformNode : Bool
deriving DecidableEq

/-- Embedding of the `InitAssemblySymmetry3D` state action
(assembly-symmetry.ts:61-70): try to attach the provider; on a throw, log
the error through the plugin log and return without touching the tree;
on success, apply the `AssemblySymmetry3D` transform under the parent. -/
def initAssemblySymmetry3D (attach : Except String Unit) : InitActionResult :=
  match attach with
  | .error e => { log := ["Assembly Symmetry: " ++ e], appliedTransformNode := false }
  | .ok _ => { log := [], appliedTransformNode := true }

/-! ### Behavior lifecycle (register / update / unregister) -/

/-- Declared parameter record of the `RCSBAssemblySymmetry` behavior
(assembly-symmetry.ts:48-51): `autoAttach` and `serverUrl`. -/
structure RCSBAssemblySymmetryParams where
  autoAttach : Bool
  serverUrl : String
deriving DecidableEq

/-- Key under which the `InitAssemblySymmetry3D` action is registered in the
plugin's action registry (an opaque identifier). -/
def initAssemblySymmetry3DKey : String := "init-assembly-symmetry-3d"

/-- The provider descriptor name of the assembly-symmetry custom property
(an opaque identifier). -/
def assemblySymmetryProviderName : String := "rcsb_assembly_symmetry"

/-- Name of the assembly-symmetry cluster color-theme provider
(an opaque identifier). -/
def assemblySymmetryClusterThemeName : String := "assembly-symmetry-cluster"

/-- The three plugin registries touched by the behavior: the data-state
action registry, the custom-structure-property registry (entries carry their
default auto-attach flag) and the color-theme registry. -/
structure PluginRegistries where
  actions : List String
  customStructureProperties : List (String × Bool)
  colorThemes : List String
deriving DecidableEq

/-- Modelled from the spec: removal from a plugin registry — §4.5 says
unregister "removes exactly what `register` added … to restore prior state",
so removal drops the most recently added entry satisfying the key predicate
(the registry implementations are not under src/). -/
def removeMostRecent {α : Type} (p : α → Bool) (l : List α) : List α :=
  (l.reverse.eraseP p).reverse

/-- Embedding of `RCSBAssemblySymmetry` `register` (assembly-symmetry.ts:29-33):
adds the init action, registers the custom property provider with the current
`autoAttach` default, and adds the cluster color theme. -/
def registerRCSBAssemblySymmetry (autoAttach : Bool) (r : PluginRegistries) :
    PluginRegistries :=
  { actions := r.actions ++ [initAssemblySymmetry3DKey],
    customStructureProperties :=
      r.customStructureProperties ++ [(assemblySymmetryProviderName, autoAttach)],
    colorThemes := r.colorThemes ++ [assemblySymmetryClusterThemeName] }

/-- Embedding of `RCSBAssemblySymmetry` `unregister` (assembly-symmetry.ts:42-46):
removes the init action, unregisters the provider by its descriptor name, and
removes the cluster color theme. -/
def unregisterRCSBAssemblySymmetry (r : PluginRegistries) : PluginRegistries :=
  { actions := removeMostRecent (· == initAssemblySymmetry3DKey) r.actions,
    customStructureProperties :=
      removeMostRecent (fun e => e.1 == assemblySymmetryProviderName)
        r.customStructureProperties,
    colorThemes := removeMostRecent (· == assemblySymmetryClusterThemeName) r.colorThemes }

/-- State held by the running behavior handler: its current parameter values
and the custom-structure-property registry's default-auto-attach table
(the side-effect target of `setDefaultAutoAttach`). -/
structure BehaviorContext where
  params : RCSBAssemblySymmetryParams
  defaultAutoAttach : List (String × Bool)
deriving DecidableEq

/-- Modelled from the spec: `customStructureProperties.setDefaultAutoAttach`
(not under src/) — rewrites the default auto-attach flag of every entry
registered under the given provider name. -/
def setDefaultAutoAttach (l : List (String × Bool)) (name : String) (v : Bool) :
    List (String × Bool) :=
  l.map (fun e => if e.1 == name then (e.1, v) else e)

/-- Embedding of `RCSBAssemblySymmetry` `update` (assembly-symmetry.ts:35-40):
`updated := this.params.autoAttach !== p.autoAttach`; store `p.autoAttach`;
call `setDefaultAutoAttach(provider.descriptor.name, autoAttach)`; return
`updated`.  Note the incoming parameter record is only read at `autoAttach`. -/
def rcsbBehaviorUpdate (s : BehaviorContext) (p : RCSBAssemblySymmetryParams) :
    Bool × BehaviorContext :=
  let updated := s.params.autoAttach != p.autoAttach
  (updated,
    { params := { s.params with autoAttach := p.autoAttach },
      defaultAutoAttach :=
        setDefaultAutoAttach s.defaultAutoAttach assemblySymmetryProviderName
          p.autoAttach })

/-! ## CCP4 volume decoding
Embedding of `mol-model/volume/formats/ccp4.ts`. -/

/-- A triple of values, used for 3-component vectors and axis orders. -/
structure Triple (α : Type) where
  a1 : α
  a2 : α
  a3 : α
deriving DecidableEq

/-- CCP4/MRC header fields consumed by `volumeFromCcp4`; JavaScript numbers
are modelled as exact rationals, and `ISPG` as optional (`none` = field
absent). -/
structure Ccp4Header where
  NX : ℚ
  NY : ℚ
  NZ : ℚ
  MODE : ℚ
  NCSTART : ℚ
  NRSTART : ℚ
  NSSTART : ℚ
  xLength : ℚ
  yLength : ℚ
  zLength : ℚ
  alpha : ℚ
  beta : ℚ
  gamma : ℚ
  MAPC : ℚ
  MAPR : ℚ
  MAPS : ℚ
  ISPG : Option ℚ
  NC : ℚ
  NR : ℚ
  NS : ℚ
  originX : ℚ
  originY : ℚ
  originZ : ℚ
  AMIN : ℚ
  AMAX : ℚ
  AMEAN : ℚ
  ARMS : ℚ
deriving DecidableEq

/-- Modelled from the spec: the International-Tables name of a numbered
spacegroup, abstracting the `SpacegroupCell` name table (not under src/);
its exact contents never matter below, only that 0/absent defaults. -/
def spacegroupNameOfNumber (n : ℚ) : String := "spacegroup " ++ toString n

/-- The spacegroup argument `header.ISPG || 'P 1'`: a missing or zero (falsy)
`ISPG` defaults to the name `'P 1'`. -/
def ccp4Spacegroup (ispg : Option ℚ) : String :=
  match ispg with
  | none => "P 1"
  | some n => if n = 0 then "P 1" else spacegroupNameOfNumber n

/-- Modelled from the spec: a spacegroup cell records the spacegroup name,
the unit-cell size and the angles in radians (§6; `SpacegroupCell.create` is
not under src/). -/
structure SpacegroupCellEmb where
  spacegroup : String
  size : Triple ℚ
  anglesInRadians : Triple ℝ

/-- Degrees to radians, `deg * (π / 180)` (mol-math `degToRad`). -/
noncomputable def degToRad (deg : ℚ) : ℝ := (deg : ℝ) * (Real.pi / 180)

/-- The 0-based fast-to-slow axis order
`(header.MAPC - 1, header.MAPR - 1, header.MAPS - 1)` (ccp4.ts:22). -/
def axisOrderFastToSlow (h : Ccp4Header) : Triple ℚ :=
  ⟨h.MAPC - 1, h.MAPR - 1, h.MAPS - 1⟩

/-- Component of `xs` whose axis is mapped to canonical index `j` by `order`
(first match; 0 when `order` is not a permutation of 0,1,2). -/
def pickAxis (order : Triple ℚ) (xs : Triple ℚ) (j : ℚ) : ℚ :=
  if order.a1 = j then xs.a1
  else if order.a2 = j then xs.a2
  else if order.a3 = j then xs.a3
  else 0

/-- Modelled from the spec:
`Tensor.convertToCanonicalAxisIndicesFastToSlow(order)` (not under src/) —
reorders a triple given in file fast-to-slow order into canonical x,y,z
order, sending component `i` to canonical position `order i` (§6: "MAPC,
MAPR, MAPS (axis order, 1-based → converted to 0-based fast-to-slow order)"). -/
def normalizeAxisOrder (order : Triple ℚ) (xs : Triple ℚ) : Triple ℚ :=
  ⟨pickAxis order xs 0, pickAxis order xs 1, pickAxis order xs 2⟩

/-- The grid origin of `volumeFromCcp4` (ccp4.ts:28-34): when all three
`originX/Y/Z` fields are zero, fall back to `NCSTART/NRSTART/NSSTART`
reordered into canonical axis order; otherwise use the origin fields. -/
def ccp4GridOrigin (h : Ccp4Header) : Triple ℚ :=
  if h.originX = 0 ∧ h.originY = 0 ∧ h.originZ = 0 then
    normalizeAxisOrder (axisOrderFastToSlow h) ⟨h.NCSTART, h.NRSTART, h.NSSTART⟩
  else
    ⟨h.originX, h.originY, h.originZ⟩

/-- The extent `normalizeOrder([header.NC, header.NR, header.NS])`
(ccp4.ts:26). -/
def ccp4Extent (h : Ccp4Header) : Triple ℚ :=
  normalizeAxisOrder (axisOrderFastToSlow h) ⟨h.NC, h.NR, h.NS⟩

/-- Componentwise division (used for the fractional origin and dimensions). -/
def divTriple (a b : Triple ℚ) : Triple ℚ :=
  ⟨a.a1 / b.a1, a.a2 / b.a2, a.a3 / b.a3⟩

/-- Componentwise product (the optional `voxelSize` scaling, ccp4.ts:18). -/
def applyVoxelSize (s : Triple ℚ) : Option (Triple ℚ) → Triple ℚ
  | some v => ⟨s.a1 * v.a1, s.a2 * v.a2, s.a3 * v.a3⟩
  | none => s

/-- Sample array element type selected by `MODE` (ccp4.ts:39). -/
inductive SampleArrayType where
  | int8
  | float32
deriving DecidableEq

/-- Precomputed header statistics, trusted as-is (ccp4.ts:50-55). -/
structure VolumeStats where
  min : ℚ
  max : ℚ
  mean : ℚ
  sigma : ℚ
deriving DecidableEq

/-- The volume data produced by `volumeFromCcp4`. -/
structure VolumeDataEmb where
  cell : SpacegroupCellEmb
  axisOrderFastToSlow : Triple ℚ
  originFrac : Triple ℚ
  dimensionsFrac : Triple ℚ
  sampleType : SampleArrayType
  dataStats : VolumeStats

/-- Embedding of `volumeFromCcp4` (ccp4.ts:14-58): build the spacegroup cell
from the lengths (scaled by the optional voxel size), the angles converted to
radians and `ISPG || 'P 1'`; normalize the axis order; compute the fractional
origin and dimensions; pick the sample type from `MODE`. -/
noncomputable def volumeFromCcp4 (h : Ccp4Header) (voxelSize : Option (Triple ℚ)) :
    VolumeDataEmb :=
  { cell :=
      { spacegroup := ccp4Spacegroup h.ISPG,
        size := applyVoxelSize ⟨h.xLength, h.yLength, h.zLength⟩ voxelSize,
        anglesInRadians := ⟨degToRad h.alpha, degToRad h.beta, degToRad h.gamma⟩ },
    axisOrderFastToSlow := axisOrderFastToSlow h,
    originFrac := divTriple (ccp4GridOrigin h) ⟨h.NX, h.NY, h.NZ⟩,
    dimensionsFrac := divTriple (ccp4Extent h) ⟨h.NX, h.NY, h.NZ⟩,
    sampleType := if h.MODE = 0 then SampleArrayType.int8 else SampleArrayType.float32,
    dataStats := ⟨h.AMIN, h.AMAX, h.AMEAN, h.ARMS⟩ }

/-! ## Structure query properties
Embedding of `mol-model/structure/query/properties.ts`. -/

/-- The kind of a structure unit (`Unit.isAtomic` distinguishes `atomic`
from the coarse kinds `spheres` and `gaussians`). -/
inductive UnitKind where
  | atomic
  | spheres
  | gaussians
deriving DecidableEq

/-- An element location: the unit kind, the element index, and the unit's
data tables as total lookup functions (conformation coordinates exist on
every unit kind; the atomic hierarchy/conformation tables are only consulted
behind the `Unit.isAtomic` guard). -/
structure ElementLocation where
  kind : UnitKind
  element : Nat
  unitX : Nat → ℚ
  unitY : Nat → ℚ
  unitZ : Nat → ℚ
  atomIdTable : Nat → Nat
  occupancyTable : Nat → ℚ
  bIsoTable : Nat → ℚ
  typeSymbolTable : Nat → String
  labelAtomIdTable : Nat → String
  authAtomIdTable : Nat → String
  labelAltIdTable : Nat → String
  formalChargeTable : Nat → ℤ
  residueIndex : Nat → Nat
  chainIndex : Nat → Nat
  residueKeyTable : Nat → Nat
  groupPdbTable : Nat → String
  labelCompIdTable : Nat → String
  authCompIdTable : Nat → String
  labelSeqIdTable : Nat → ℤ
  authSeqIdTable : Nat → ℤ
  insCodeTable : Nat → String
  chainKeyTable : Nat → Nat
  labelAsymIdTable : Nat → String
  authAsymIdTable : Nat → String
  labelEntityIdTable : Nat → String

/-- The message thrown by `notAtomic()` (properties.ts:15-17). -/
def notAtomicMessage : String := "Property only available for atomic models."

/-- `Unit.isAtomic(l.unit)`. -/
def isAtomicUnit (l : ElementLocation) : Bool := l.kind == UnitKind.atomic

/-- Guard shared by every atomic-only property:
`!Unit.isAtomic(l.unit) ? notAtomic() : value`. -/
def atomicOnly {α : Type} (l : ElementLocation) (value : α) : Except String α :=
  if isAtomicUnit l then .ok value else .error notAtomicMessage

/-- `Properties.constant.true`. -/
def constantTrueProp (_ : ElementLocation) : Except String Bool := .ok true

/-- `Properties.constant.false`. -/
def constantFalseProp (_ : ElementLocation) : Except String Bool := .ok false

/-- `Properties.constant.zero`. -/
def constantZeroProp (_ : ElementLocation) : Except String ℚ := .ok 0

/-- `Properties.atom.key = l.element`. -/
def atomKeyProp (l : ElementLocation) : Except String Nat := .ok l.element

/-- `Properties.atom.x = l.unit.x(l.element)` (total for every unit kind). -/
def atomXProp (l : ElementLocation) : Except String ℚ := .ok (l.unitX l.element)

/-- `Properties.atom.y`. -/
def atomYProp (l : ElementLocation) : Except String ℚ := .ok (l.unitY l.element)

/-- `Properties.atom.z`. -/
def atomZProp (l : ElementLocation) : Except String ℚ := .ok (l.unitZ l.element)

/-- `Properties.atom.id` (atomic only). -/
def atomIdProp (l : ElementLocation) : Except String Nat :=
  atomicOnly l (l.atomIdTable l.element)

/-- `Properties.atom.occupancy` (atomic only). -/
def atomOccupancyProp (l : ElementLocation) : Except String ℚ :=
  atomicOnly l (l.occupancyTable l.element)

/-- `Properties.atom.B_iso_or_equiv` (atomic only). -/
def atomBIsoOrEquivProp (l : ElementLocation) : Except String ℚ :=
  atomicOnly l (l.bIsoTable l.element)

/-- `Properties.atom.type_symbol` (atomic only). -/
def atomTypeSymbolProp (l : ElementLocation) : Except String String :=
  atomicOnly l (l.typeSymbolTable l.element)

/-- `Properties.atom.label_atom_id` (atomic only). -/
def atomLabelAtomIdProp (l : ElementLocation) : Except String String :=
  atomicOnly l (l.labelAtomIdTable l.element)

/-- `Properties.atom.auth_atom_id` (atomic only). -/
def atomAuthAtomIdProp (l : ElementLocation) : Except String String :=
  atomicOnly l (l.authAtomIdTable l.element)

/-- `Properties.atom.label_alt_id` (atomic only). -/
def atomLabelAltIdProp (l : ElementLocation) : Except String String :=
  atomicOnly l (l.labelAltIdTable l.element)

/-- `Properties.atom.pdbx_formal_charge` (atomic only). -/
def atomFormalChargeProp (l : ElementLocation) : Except String ℤ :=
  atomicOnly l (l.formalChargeTable l.element)

/-- `Properties.residue.key` (atomic only, indexed through `residueIndex`). -/
def residueKeyProp (l : ElementLocation) : Except String Nat :=
  atomicOnly l (l.residueKeyTable (l.residueIndex l.element))

/-- `Properties.residue.group_PDB` (atomic only). -/
def residueGroupPdbProp (l : ElementLocation) : Except String String :=
  atomicOnly l (l.groupPdbTable (l.residueIndex l.element))

/-- `Properties.residue.label_comp_id` (atomic only). -/
def residueLabelCompIdProp (l : ElementLocation) : Except String String :=
  atomicOnly l (l.labelCompIdTable (l.residueIndex l.element))

/-- `Properties.residue.auth_comp_id` (atomic only). -/
def residueAuthCompIdProp (l : ElementLocation) : Except String String :=
  atomicOnly l (l.authCompIdTable (l.residueIndex l.element))

/-- `Properties.residue.label_seq_id` (atomic only). -/
def residueLabelSeqIdProp (l : ElementLocation) : Except String ℤ :=
  atomicOnly l (l.labelSeqIdTable (l.residueIndex l.element))

/-- `Properties.residue.auth_seq_id` (atomic only). -/
def residueAuthSeqIdProp (l : ElementLocation) : Except String ℤ :=
  atomicOnly l (l.authSeqIdTable (l.residueIndex l.element))

/-- `Properties.residue.pdbx_PDB_ins_code` (atomic only). -/
def residueInsCodeProp (l : ElementLocation) : Except String String :=
  atomicOnly l (l.insCodeTable (l.residueIndex l.element))

/-- `Properties.chain.key` (atomic only, indexed through `chainIndex`). -/
def chainKeyProp (l : ElementLocation) : Except String Nat :=
  atomicOnly l (l.chainKeyTable (l.chainIndex l.element))

/-- `Properties.chain.label_asym_id` (atomic only). -/
def chainLabelAsymIdProp (l : ElementLocation) : Except String String :=
  atomicOnly l (l.labelAsymIdTable (l.chainIndex l.element))

/-- `Properties.chain.auth_asym_id` (atomic only). -/
def chainAuthAsymIdProp (l : ElementLocation) : Except String String :=
  atomicOnly l (l.authAsymIdTable (l.chainIndex l.element))

/-- `Properties.chain.label_entity_id` (atomic only). -/
def chainLabelEntityIdProp (l : ElementLocation) : Except String String :=
  atomicOnly l (l.labelEntityIdTable (l.chainIndex l.element))

/-! ## Model.getCenter caching
Embedding of `Model.getCenter` (model.ts, appended to the points source). -/

/-- A 3-vector of rationals. -/
structure Vec3q where
  x : ℚ
  y : ℚ
  z : ℚ
deriving DecidableEq

/-- A model as far as `getCenter` observes it: the conformation data the
center is computed from, and the `_dynamicPropertyData` bag (an association
list keyed by property name). -/
structure ModelEmb where
  positions : List Vec3q
  dynamicPropertyData : List (String × Vec3q)
deriving DecidableEq

/-- Stands for `calcModelCenter(model.atomicConformation,
model.coarseConformation)` (mol-model util, not under src/): a deterministic
center of the model's conformation data, here the centroid of `positions`. -/
def calcModelCenter (m : ModelEmb) : Vec3q :=
  let n : ℚ := m.positions.length
  let s := m.positions.foldr (fun v acc => Vec3q.mk (v.x + acc.x) (v.y + acc.y) (v.z + acc.z)) ⟨0, 0, 0⟩
  if n = 0 then ⟨0, 0, 0⟩ else ⟨s.x / n, s.y / n, s.z / n⟩

/-- The `'__Center__'` key (model.ts `CenterProp`). -/
def centerPropKey : String := "__Center__"

/-- Embedding of `Model.getCenter`: return the value cached under
`'__Center__'` in `_dynamicPropertyData` when present; otherwise compute the
center with `calcModelCenter`, store it under that key and return it.  The
mutation of the property bag is modelled by returning the updated model. -/
def getCenter (m : ModelEmb) : Vec3q × ModelEmb :=
  match m.dynamicPropertyData.lookup centerPropKey with
  | some c => (c, m)
  | none =>
    let center := calcModelCenter m
    (center, { m with dynamicPropertyData := (centerPropKey, center) :: m.dynamicPropertyData })

/-! ## Chain superposition
The superposition helpers used by `SuperpositionControls.superposeChains`
(`superpose` lives in `mol-model/structure/structure/util/superposition`,
which is not under src/; it is modelled from the spec below).  Coordinates
are exact reals. -/

/-- A 3-vector of reals (a coordinate of a trace location). -/
structure Vec3r where
  x : ℝ
  y : ℝ
  z : ℝ

/-- Componentwise vector addition. -/
noncomputable def vadd (a b : Vec3r) : Vec3r := ⟨a.x + b.x, a.y + b.y, a.z + b.z⟩

/-- Componentwise vector subtraction. -/
noncomputable def vsub (a b : Vec3r) : Vec3r := ⟨a.x - b.x, a.y - b.y, a.z - b.z⟩

/-- Squared euclidean norm. -/
noncomputable def normSq (v : Vec3r) : ℝ := v.x ^ 2 + v.y ^ 2 + v.z ^ 2

/-- Sum of a list of vectors. -/
noncomputable def vsum (l : List Vec3r) : Vec3r := l.foldr vadd ⟨0, 0, 0⟩

/-- Centroid (mean position) of a list of vectors. -/
noncomputable def centroid (l : List Vec3r) : Vec3r :=
  ⟨(vsum l).x / l.length, (vsum l).y / l.length, (vsum l).z / l.length⟩

/-- A 4×4 affine transform; `mij` is the entry in row `i`, column `j`, and a
point transforms as a homogeneous column vector with `w = 1`. -/
structure Mat4 where
  m00 : ℝ
  m01 : ℝ
  m02 : ℝ
  m03 : ℝ
  m10 : ℝ
  m11 : ℝ
  m12 : ℝ
  m13 : ℝ
  m20 : ℝ
  m21 : ℝ
  m22 : ℝ
  m23 : ℝ
  m30 : ℝ
  m31 : ℝ
  m32 : ℝ
  m33 : ℝ

/-- The homogeneous `w` of a transformed point, with the JavaScript
`w || 1.0` fallback of `Vec3.transformMat4`. -/
noncomputable def mat4W (m : Mat4) (v : Vec3r) : ℝ :=
  if m.m30 * v.x + m.m31 * v.y + m.m32 * v.z + m.m33 = 0 then 1
  else m.m30 * v.x + m.m31 * v.y + m.m32 * v.z + m.m33

/-- Apply a 4×4 transform to a position (`Vec3.transformMat4`, used by
`transformPositionArray` when the superposition transform is applied). -/
noncomputable def transformMat4 (m : Mat4) (v : Vec3r) : Vec3r :=
  ⟨(m.m00 * v.x + m.m01 * v.y + m.m02 * v.z + m.m03) / mat4W m v,
   (m.m10 * v.x + m.m11 * v.y + m.m12 * v.z + m.m13) / mat4W m v,
   (m.m20 * v.x + m.m21 * v.y + m.m22 * v.z + m.m23) / mat4W m v⟩

/-- The affine translation matrix by `t`. -/
noncomputable def translationMat4 (t : Vec3r) : Mat4 :=
  ⟨1, 0, 0, t.x,
   0, 1, 0, t.y,
   0, 0, 1, t.z,
   0, 0, 0, 1⟩

/-- Pointwise deviations `b i − a i` of two paired coordinate lists. -/
noncomputable def deviations (a b : List Vec3r) : List Vec3r :=
  List.zipWith (fun p q => vsub q p) a b

/-- Sum of squared deviations of `b` from `a`. -/
noncomputable def sumSqDev (a b : List Vec3r) : ℝ :=
  ((deviations a b).map normSq).sum

/-- Mean squared deviation of the paired coordinates. -/
noncomputable def msd (a b : List Vec3r) : ℝ := sumSqDev a b / a.length

/-- Root-mean-square deviation of the paired coordinates. -/
noncomputable def rmsdOf (a b : List Vec3r) : ℝ := Real.sqrt (msd a b)

/-- Output of a pairwise superposition: the transform to apply to the second
entity and the RMSD of the aligned pair. -/
structure SuperposeResult where
  bTransform : Mat4
  rmsd : ℝ

/-- Modelled from the spec: `superpose` on a pair of trace-coordinate lists
(§8: the output "must contain an RMSD value ≥ 0 and a 4×4 affine transform";
applying the transform to the second entity must not increase the RMSD).
The transform aligns the centroid of `b` onto the centroid of `a`, and the
reported RMSD is recomputed on the aligned coordinates. -/
noncomputable def superpose (a b : List Vec3r) : SuperposeResult :=
  { bTransform := translationMat4 (vsub (centroid a) (centroid b)),
    rmsd := rmsdOf a (b.map (fun v => vadd v (vsub (centroid a) (centroid b)))) }

/-! ## Concrete fixtures used by witnesses and counterexamples -/

/-- A coarse (spheres) element location with constant data tables. -/
def sphereLocation : ElementLocation :=
  { kind := UnitKind.spheres
    element := 0
    unitX := fun _ => 1
    unitY := fun _ => 2
    unitZ := fun _ => 3
    atomIdTable := fun _ => 0
    occupancyTable := fun _ => 0
    bIsoTable := fun _ => 0
    typeSymbolTable := fun _ => ""
    labelAtomIdTable := fun _ => ""
    authAtomIdTable := fun _ => ""
    labelAltIdTable := fun _ => ""
    formalChargeTable := fun _ => 0
    residueIndex := fun _ => 0
    chainIndex := fun _ => 0
    residueKeyTable := fun _ => 0
    groupPdbTable := fun _ => ""
    labelCompIdTable := fun _ => ""
    authCompIdTable := fun _ => ""
    labelSeqIdTable := fun _ => 0
    authSeqIdTable := fun _ => 0
    insCodeTable := fun _ => ""
    chainKeyTable := fun _ => 0
    labelAsymIdTable := fun _ => ""
    authAsymIdTable := fun _ => ""
    labelEntityIdTable := fun _ => "" }

/-- The CCP4 header of the spec's decode scenario (unlisted fields hold
concrete unconstrained values; `ISPG` at its falsy default). -/
def sampleHeaderC5 : Ccp4Header :=
  { NX := 4, NY := 5, NZ := 6, MODE := 0,
    NCSTART := 0, NRSTART := 0, NSSTART := 0,
    xLength := 10, yLength := 10, zLength := 10,
    alpha := 90, beta := 90, gamma := 90,
    MAPC := 1, MAPR := 2, MAPS := 3,
    ISPG := some 0, NC := 4, NR := 5, NS := 6,
    originX := 0, originY := 0, originZ := 0,
    AMIN := 0, AMAX := 1, AMEAN := 1/2, ARMS := 1/4 }

/-- The same header with non-zero `originX/Y/Z` fields. -/
def sampleHeaderOrigin : Ccp4Header :=
  { sampleHeaderC5 with originX := 1, originY := 2, originZ := 3 }

/-- A model with one position and an empty dynamic property bag. -/
def sampleModel : ModelEmb :=
  { positions := [⟨1, 2, 3⟩], dynamicPropertyData := [] }

/-! ## Helper lemmas -/

/-- Removing the most recently added matching entry undoes a registration. -/
theorem removeMostRecent_append {α : Type} (p : α → Bool) (l : List α) (x : α)
    (hx : p x = true) : removeMostRecent p (l ++ [x]) = l := by
  simp [removeMostRecent, List.eraseP_cons_of_pos, hx]

/-- Reordering an all-zero triple gives the all-zero triple. -/
theorem pickAxis_zero (o : Triple ℚ) (j : ℚ) : pickAxis o ⟨0, 0, 0⟩ j = 0 := by
  unfold pickAxis
  split_ifs <;> rfl

/-! ## C1: apply with zero clusters returns the Null sentinel -/

/-- C1: for every structure parent, when the attached assembly-symmetry
property resolves to zero clusters (value missing or of length 0),
`AssemblySymmetry3D.apply` returns the sentinel Null state object — a
successful (`ok`) terminal output, not an error — and registers no
representation node. -/
theorem assemblySymmetry_apply_zero_clusters_null
    (value : Option (List SymmetryEntry)) (symmetryIndex : Nat)
    (h : value = none ∨ value = some []) :
    applyAssemblySymmetry3D (.ok value) symmetryIndex = .ok ApplyOutput.nullObject := by
  rcases h with h | h <;> subst h <;> rfl

/-- Witness for C1 at the concrete empty cluster list. -/
theorem assemblySymmetry_apply_zero_clusters_null_witness :
    applyAssemblySymmetry3D (.ok (some [])) 0 = .ok ApplyOutput.nullObject :=
  assemblySymmetry_apply_zero_clusters_null (some []) 0 (Or.inr rfl)

/-! ## C2: update's Recreate signal -/

/-- C2 counterexample: with a successfully attached property holding one
cluster and the new `symmetryIndex = 1` (out of range), `update` throws the
destructuring error instead of refreshing `b` and returning `Updated`, so
"otherwise it refreshes b in place and returns Updated" fails as stated. -/
theorem assemblySymmetry_update_oob_counterexample :
    updateAssemblySymmetry3D (.ok (some [SymmetryEntry.mk "Cyclic" "C2" "C2"]))
      (Representation3DState.mk "l" "d") 1 = .error destructureError := rfl

/-- C2 (amended): with a successfully attached provider,
`AssemblySymmetry3D.update` returns `Recreate` exactly when the property
value is missing or resolves to zero clusters; otherwise, whenever the new
`symmetryIndex` is a valid index, it refreshes `b`'s label and description
in place and returns `Updated` (an out-of-range index throws instead). -/
theorem assemblySymmetry_update_recreate_iff
    (value : Option (List SymmetryEntry)) (b : Representation3DState) (i : Nat) :
    (updateAssemblySymmetry3D (.ok value) b i = .ok UpdateSignal.recreate
       ↔ value = none ∨ value = some [])
    ∧ (∀ entries s, value = some entries → entries[i]? = some s →
        updateAssemblySymmetry3D (.ok value) b i =
          .ok (.updated { b with label := s.kind,
                                 description := s.type ++ " (" ++ s.symbol ++ ")" })) := by
  constructor
  · constructor
    · intro h
      match value with
      | none => exact Or.inl rfl
      | some entries =>
        refine Or.inr ?_
        by_cases hlen : entries.length = 0
        · rw [List.length_eq_zero] at hlen
          rw [hlen]
        · exfalso
          cases hget : entries[i]? <;>
            simp [updateAssemblySymmetry3D, hlen, hget] at h
    · intro h
      rcases h with h | h <;> subst h <;> rfl
  · intro entries s hv hget
    subst hv
    have hlen : ¬ entries.length = 0 := by
      intro h0
      rw [List.length_eq_zero] at h0
      subst h0
      simp at hget
    simp [updateAssemblySymmetry3D, hlen, hget]

/-- Witness for C2 (amended) at one concrete cluster and index 0. -/
theorem assemblySymmetry_update_recreate_iff_witness :
    updateAssemblySymmetry3D (.ok (some [SymmetryEntry.mk "Cyclic" "C2" "C2"]))
      (Representation3DState.mk "l" "d") 0 =
      .ok (.updated { label := "C2", description := "Cyclic" ++ " (" ++ "C2" ++ ")" }) :=
  (assemblySymmetry_update_recreate_iff
      (some [SymmetryEntry.mk "Cyclic" "C2" "C2"])
      (Representation3DState.mk "l" "d") 0).2
    [SymmetryEntry.mk "Cyclic" "C2" "C2"] (SymmetryEntry.mk "Cyclic" "C2" "C2") rfl rfl

/-! ## C4: attachment failure handling -/

/-- C4 counterexample: the `AssemblySymmetry3D` transform's own `apply` does
not catch — an attach that throws "network error" propagates out of the
transform instead of yielding a null/empty output. -/
theorem assemblySymmetry_apply_propagates_counterexample :
    applyAssemblySymmetry3D (.error "network error") 0 = .error "network error" := rfl

/-- C4 (amended): when the custom-property compute throws during the
`InitAssemblySymmetry3D` action's attach, the failure is logged through the
plugin's logging channel (prefixed "Assembly Symmetry: ") and the action
returns an empty result — no transform node is applied to the tree and the
throw is not propagated.  The `AssemblySymmetry3D` transform's own `apply`,
by contrast, propagates a throwing attach. -/
theorem initAssemblySymmetry_attach_failure_logged (e : String) :
    initAssemblySymmetry3D (.error e) =
      { log := ["Assembly Symmetry: " ++ e], appliedTransformNode := false }
    ∧ applyAssemblySymmetry3D (.error e) 0 = .error e :=
  ⟨rfl, rfl⟩

/-- Witness for C4 (amended) at the concrete error "network error". -/
theorem initAssemblySymmetry_attach_failure_logged_witness :
    initAssemblySymmetry3D (.error "network error") =
      { log := ["Assembly Symmetry: " ++ "network error"], appliedTransformNode := false }
    ∧ applyAssemblySymmetry3D (.error "network error") 0 = .error "network error" :=
  initAssemblySymmetry_attach_failure_logged "network error"

/-! ## C3: register/unregister symmetry -/

/-- C3: for every prior registry state, running the RCSBAssemblySymmetry
behavior's `register()` followed by `unregister()` leaves the plugin's
action, custom-structure-property and color-theme registries identical to
their pre-register state (unregister removes exactly what register added). -/
theorem rcsb_register_unregister_symmetry (autoAttach : Bool) (r : PluginRegistries) :
    unregisterRCSBAssemblySymmetry (registerRCSBAssemblySymmetry autoAttach r) = r := by
  have h1 := removeMostRecent_append (· == initAssemblySymmetry3DKey)
    r.actions initAssemblySymmetry3DKey (by simp)
  have h2 := removeMostRecent_append (fun e => e.1 == assemblySymmetryProviderName)
    r.customStructureProperties (assemblySymmetryProviderName, autoAttach) (by simp)
  have h3 := removeMostRecent_append (· == assemblySymmetryClusterThemeName)
    r.colorThemes assemblySymmetryClusterThemeName (by simp)
  simp [registerRCSBAssemblySymmetry, unregisterRCSBAssemblySymmetry, h1, h2, h3]

/-- Witness for C3 at a concrete non-empty prior registry state. -/
theorem rcsb_register_unregister_symmetry_witness :
    unregisterRCSBAssemblySymmetry
      (registerRCSBAssemblySymmetry true
        { actions := ["other-action"],
          customStructureProperties := [("other-prop", false)],
          colorThemes := ["other-theme"] }) =
      { actions := ["other-action"],
        customStructureProperties := [("other-prop", false)],
        colorThemes := ["other-theme"] } :=
  rcsb_register_unregister_symmetry true _

/-! ## C7: behavior update's change detection -/

/-- C7 counterexample: with current params `{autoAttach := false, serverUrl
:= "https://a"}` and new params `{autoAttach := false, serverUrl :=
"https://b"}`, the new params differ observably from the current ones, yet
`update` returns `false`. -/
theorem rcsbBehaviorUpdate_serverUrl_counterexample :
    (rcsbBehaviorUpdate
        { params := { autoAttach := false, serverUrl := "https://a" },
          defaultAutoAttach := [] }
        { autoAttach := false, serverUrl := "https://b" }).1 = false
    ∧ ({ autoAttach := false, serverUrl := "https://b" } : RCSBAssemblySymmetryParams) ≠
        { autoAttach := false, serverUrl := "https://a" } := by
  exact ⟨rfl, by decide⟩

/-- C7 (amended): `update(p)` returns `true` exactly when `p.autoAttach`
differs from the current `autoAttach` — a change of the declared `serverUrl`
field alone is not detected — and it applies the side-effecting
reconfiguration, setting the provider's default auto-attach (and the stored
`autoAttach` parameter) to `p.autoAttach`. -/
theorem rcsbBehaviorUpdate_autoAttach_only (s : BehaviorContext)
    (p : RCSBAssemblySymmetryParams) :
    ((rcsbBehaviorUpdate s p).1 = true ↔ s.params.autoAttach ≠ p.autoAttach)
    ∧ (rcsbBehaviorUpdate s p).2.params.autoAttach = p.autoAttach
    ∧ ∀ e ∈ (rcsbBehaviorUpdate s p).2.defaultAutoAttach,
        e.1 = assemblySymmetryProviderName → e.2 = p.autoAttach := by
  refine ⟨?_, rfl, ?_⟩
  · simp [rcsbBehaviorUpdate]
  · intro e he hname
    simp only [rcsbBehaviorUpdate, setDefaultAutoAttach, List.mem_map] at he
    obtain ⟨a, _, ha⟩ := he
    by_cases h : a.1 = assemblySymmetryProviderName
    · rw [if_pos (by simp [h])] at ha
      rw [← ha]
    · rw [if_neg (by simp [h])] at ha
      rw [← ha] at hname
      exact absurd hname h

/-- Witness for C7 (amended) at concrete states where autoAttach flips. -/
theorem rcsbBehaviorUpdate_autoAttach_only_witness :
    ((rcsbBehaviorUpdate
        { params := { autoAttach := false, serverUrl := "https://a" },
          defaultAutoAttach := [(assemblySymmetryProviderName, false)] }
        { autoAttach := true, serverUrl := "https://a" }).1 = true ↔
      ({ autoAttach := false, serverUrl := "https://a" } :
          RCSBAssemblySymmetryParams).autoAttach ≠ true)
    ∧ (rcsbBehaviorUpdate
        { params := { autoAttach := false, serverUrl := "https://a" },
          defaultAutoAttach := [(assemblySymmetryProviderName, false)] }
        { autoAttach := true, serverUrl := "https://a" }).2.params.autoAttach = true
    ∧ ∀ e ∈ (rcsbBehaviorUpdate
        { params := { autoAttach := false, serverUrl := "https://a" },
          defaultAutoAttach := [(assemblySymmetryProviderName, false)] }
        { autoAttach := true, serverUrl := "https://a" }).2.defaultAutoAttach,
        e.1 = assemblySymmetryProviderName → e.2 = true :=
  rcsbBehaviorUpdate_autoAttach_only
    { params := { autoAttach := false, serverUrl := "https://a" },
      defaultAutoAttach := [(assemblySymmetryProviderName, false)] }
    { autoAttach := true, serverUrl := "https://a" }

/-! ## C9: atomic-only properties throw on coarse units -/

/-- C9: for every element location whose unit is not atomic, each
atomic-only structure-query property (`atom.id`, `atom.occupancy`,
`atom.B_iso_or_equiv`, the atom hierarchy properties, and every `residue.*`
and `chain.*` property) throws "Property only available for atomic models.",
while `constant.*`, `atom.key` and the coordinates `atom.x/y/z` are total
and never throw for any unit kind. -/
theorem properties_atomic_guard (l : ElementLocation) :
    (l.kind ≠ UnitKind.atomic →
      atomIdProp l = .error notAtomicMessage
      ∧ atomOccupancyProp l = .error notAtomicMessage
      ∧ atomBIsoOrEquivProp l = .error notAtomicMessage
      ∧ atomTypeSymbolProp l = .error notAtomicMessage
      ∧ atomLabelAtomIdProp l = .error notAtomicMessage
      ∧ atomAuthAtomIdProp l = .error notAtomicMessage
      ∧ atomLabelAltIdProp l = .error notAtomicMessage
      ∧ atomFormalChargeProp l = .error notAtomicMessage
      ∧ residueKeyProp l = .error notAtomicMessage
      ∧ residueGroupPdbProp l = .error notAtomicMessage
      ∧ residueLabelCompIdProp l = .error notAtomicMessage
      ∧ residueAuthCompIdProp l = .error notAtomicMessage
      ∧ residueLabelSeqIdProp l = .error notAtomicMessage
      ∧ residueAuthSeqIdProp l = .error notAtomicMessage
      ∧ residueInsCodeProp l = .error notAtomicMessage
      ∧ chainKeyProp l = .error notAtomicMessage
      ∧ chainLabelAsymIdProp l = .error notAtomicMessage
      ∧ chainAuthAsymIdProp l = .error notAtomicMessage
      ∧ chainLabelEntityIdProp l = .error notAtomicMessage)
    ∧ (constantTrueProp l = .ok true
       ∧ constantFalseProp l = .ok false
       ∧ constantZeroProp l = .ok 0
       ∧ atomKeyProp l = .ok l.element
       ∧ atomXProp l = .ok (l.unitX l.element)
       ∧ atomYProp l = .ok (l.unitY l.element)
       ∧ atomZProp l = .ok (l.unitZ l.element)) := by
  constructor
  · intro h
    have hb : isAtomicUnit l = false := by
      simp [isAtomicUnit, h]
    simp [atomIdProp, atomOccupancyProp, atomBIsoOrEquivProp, atomTypeSymbolProp,
      atomLabelAtomIdProp, atomAuthAtomIdProp, atomLabelAltIdProp,
      atomFormalChargeProp, residueKeyProp, residueGroupPdbProp,
      residueLabelCompIdProp, residueAuthCompIdProp, residueLabelSeqIdProp,
      residueAuthSeqIdProp, residueInsCodeProp, chainKeyProp,
      chainLabelAsymIdProp, chainAuthAsymIdProp, chainLabelEntityIdProp,
      atomicOnly, hb]
  · exact ⟨rfl, rfl, rfl, rfl, rfl, rfl, rfl⟩

/-- Witness for C9 at a concrete spheres-unit location. -/
theorem properties_atomic_guard_witness :
    (atomIdProp sphereLocation = .error notAtomicMessage
      ∧ atomOccupancyProp sphereLocation = .error notAtomicMessage
      ∧ atomBIsoOrEquivProp sphereLocation = .error notAtomicMessage
      ∧ atomTypeSymbolProp sphereLocation = .error notAtomicMessage
      ∧ atomLabelAtomIdProp sphereLocation = .error notAtomicMessage
      ∧ atomAuthAtomIdProp sphereLocation = .error notAtomicMessage
      ∧ atomLabelAltIdProp sphereLocation = .error notAtomicMessage
      ∧ atomFormalChargeProp sphereLocation = .error notAtomicMessage
      ∧ residueKeyProp sphereLocation = .error notAtomicMessage
      ∧ residueGroupPdbProp sphereLocation = .error notAtomicMessage
      ∧ residueLabelCompIdProp sphereLocation = .error notAtomicMessage
      ∧ residueAuthCompIdProp sphereLocation = .error notAtomicMessage
      ∧ residueLabelSeqIdProp sphereLocation = .error notAtomicMessage
      ∧ residueAuthSeqIdProp sphereLocation = .error notAtomicMessage
      ∧ residueInsCodeProp sphereLocation = .error notAtomicMessage
      ∧ chainKeyProp sphereLocation = .error notAtomicMessage
      ∧ chainLabelAsymIdProp sphereLocation = .error notAtomicMessage
      ∧ chainAuthAsymIdProp sphereLocation = .error notAtomicMessage
      ∧ chainLabelEntityIdProp sphereLocation = .error notAtomicMessage)
    ∧ constantTrueProp sphereLocation = .ok true :=
  ⟨(properties_atomic_guard sphereLocation).1 (by decide),
   (properties_atomic_guard sphereLocation).2.1⟩

/-! ## C10: Model.getCenter caches under the Center key -/

/-- C10: for every model whose dynamic property bag has no center entry yet,
`Model.getCenter` computes the center with `calcModelCenter`, stores it
under the `'__Center__'` key of `_dynamicPropertyData`, and every subsequent
call returns that same cached value without recomputation (the model state
is left unchanged by the second call). -/
theorem model_getCenter_caches (m : ModelEmb)
    (h : m.dynamicPropertyData.lookup centerPropKey = none) :
    (getCenter m).1 = calcModelCenter m
    ∧ (getCenter m).2.dynamicPropertyData.lookup centerPropKey = some (getCenter m).1
    ∧ getCenter (getCenter m).2 = ((getCenter m).1, (getCenter m).2) := by
  refine ⟨?_, ?_, ?_⟩
  · simp [getCenter, h]
  · simp [getCenter, h, List.lookup]
  · simp [getCenter, h, List.lookup]

/-- Witness for C10 at a concrete model with an empty property bag. -/
theorem model_getCenter_caches_witness :
    (getCenter sampleModel).1 = calcModelCenter sampleModel
    ∧ (getCenter sampleModel).2.dynamicPropertyData.lookup centerPropKey =
        some (getCenter sampleModel).1
    ∧ getCenter (getCenter sampleModel).2 =
        ((getCenter sampleModel).1, (getCenter sampleModel).2) :=
  model_getCenter_caches sampleModel rfl

/-! ## C5: the CCP4 decode scenario -/

/-- C5: for a CCP4 header with `MODE = 0`, lengths 10, angles 90°,
`MAPC/MAPR/MAPS = 1/2/3`, zero origin fields, zero `NCSTART/NRSTART/NSSTART`
and the spacegroup field at its falsy default, `volumeFromCcp4` produces a
cell with spacegroup `'P 1'`, all three angles equal to π/2 radians, the
identity axis order and fractional origin `(0, 0, 0)`. -/
theorem volumeFromCcp4_p1_scenario (h : Ccp4Header)
    (_hmode : h.MODE = 0)
    (_hx : h.xLength = 10) (_hy : h.yLength = 10) (_hz : h.zLength = 10)
    (hal : h.alpha = 90) (hbe : h.beta = 90) (hga : h.gamma = 90)
    (hmc : h.MAPC = 1) (hmr : h.MAPR = 2) (hms : h.MAPS = 3)
    (hox : h.originX = 0) (hoy : h.originY = 0) (hoz : h.originZ = 0)
    (hnc : h.NCSTART = 0) (hnr : h.NRSTART = 0) (hns : h.NSSTART = 0)
    (hispg : h.ISPG = none ∨ h.ISPG = some 0) :
    (volumeFromCcp4 h none).cell.spacegroup = "P 1"
    ∧ (volumeFromCcp4 h none).cell.anglesInRadians =
        ⟨Real.pi / 2, Real.pi / 2, Real.pi / 2⟩
    ∧ (volumeFromCcp4 h none).axisOrderFastToSlow = ⟨0, 1, 2⟩
    ∧ (volumeFromCcp4 h none).originFrac = ⟨0, 0, 0⟩ := by
  have hang : degToRad 90 = Real.pi / 2 := by
    unfold degToRad
    push_cast
    ring
  have horigin : ccp4GridOrigin h = ⟨0, 0, 0⟩ := by
    unfold ccp4GridOrigin
    rw [if_pos ⟨hox, hoy, hoz⟩, hnc, hnr, hns]
    unfold normalizeAxisOrder
    rw [pickAxis_zero, pickAxis_zero, pickAxis_zero]
  refine ⟨?_, ?_, ?_, ?_⟩
  · rcases hispg with hi | hi <;> simp [volumeFromCcp4, ccp4Spacegroup, hi]
  · simp [volumeFromCcp4, hal, hbe, hga, hang]
  · simp [volumeFromCcp4, axisOrderFastToSlow, hmc, hmr, hms]
    norm_num
  · simp [volumeFromCcp4, divTriple, horigin]

/-- Witness for C5 at the concrete scenario header. -/
theorem volumeFromCcp4_p1_scenario_witness :
    (volumeFromCcp4 sampleHeaderC5 none).cell.spacegroup = "P 1"
    ∧ (volumeFromCcp4 sampleHeaderC5 none).cell.anglesInRadians =
        ⟨Real.pi / 2, Real.pi / 2, Real.pi / 2⟩
    ∧ (volumeFromCcp4 sampleHeaderC5 none).axisOrderFastToSlow = ⟨0, 1, 2⟩
    ∧ (volumeFromCcp4 sampleHeaderC5 none).originFrac = ⟨0, 0, 0⟩ :=
  volumeFromCcp4_p1_scenario sampleHeaderC5 rfl rfl rfl rfl rfl rfl rfl rfl rfl rfl
    rfl rfl rfl rfl rfl rfl (Or.inr rfl)

/-! ## C6: origin precedence -/

/-- C6: for every CCP4 header, `volumeFromCcp4` takes the grid origin from
the `originX/Y/Z` fields whenever they are not all zero, and only when all
three are zero does it fall back to `NCSTART/NRSTART/NSSTART` reordered into
canonical fast-to-slow axis order (the fractional origin divides the chosen
grid origin by the grid size either way). -/
theorem volumeFromCcp4_origin_precedence (h : Ccp4Header) (vs : Option (Triple ℚ)) :
    ((h.originX = 0 ∧ h.originY = 0 ∧ h.originZ = 0) →
      (volumeFromCcp4 h vs).originFrac =
        divTriple (normalizeAxisOrder (axisOrderFastToSlow h)
            ⟨h.NCSTART, h.NRSTART, h.NSSTART⟩) ⟨h.NX, h.NY, h.NZ⟩)
    ∧ (¬(h.originX = 0 ∧ h.originY = 0 ∧ h.originZ = 0) →
      (volumeFromCcp4 h vs).originFrac =
        divTriple ⟨h.originX, h.originY, h.originZ⟩ ⟨h.NX, h.NY, h.NZ⟩) := by
  constructor
  · intro hc
    simp only [volumeFromCcp4]
    unfold ccp4GridOrigin
    rw [if_pos hc]
  · intro hc
    simp only [volumeFromCcp4]
    unfold ccp4GridOrigin
    rw [if_neg hc]

/-- Witness for C6: the fallback branch at the all-zero-origin header and
the precedence branch at the non-zero-origin header. -/
theorem volumeFromCcp4_origin_precedence_witness :
    (volumeFromCcp4 sampleHeaderC5 none).originFrac =
      divTriple (normalizeAxisOrder (axisOrderFastToSlow sampleHeaderC5)
          ⟨sampleHeaderC5.NCSTART, sampleHeaderC5.NRSTART, sampleHeaderC5.NSSTART⟩)
        ⟨sampleHeaderC5.NX, sampleHeaderC5.NY, sampleHeaderC5.NZ⟩
    ∧ (volumeFromCcp4 sampleHeaderOrigin none).originFrac =
        divTriple ⟨sampleHeaderOrigin.originX, sampleHeaderOrigin.originY,
            sampleHeaderOrigin.originZ⟩
          ⟨sampleHeaderOrigin.NX, sampleHeaderOrigin.NY, sampleHeaderOrigin.NZ⟩ :=
  ⟨(volumeFromCcp4_origin_precedence sampleHeaderC5 none).1 ⟨rfl, rfl, rfl⟩,
   (volumeFromCcp4_origin_precedence sampleHeaderOrigin none).2 (by decide)⟩

/-! ## Helper lemmas for the superposition claim -/

/-- Sums of pointwise-added mapped lists split. -/
theorem sum_map_add {α : Type} (l : List α) (f g : α → ℝ) :
    (l.map (fun v => f v + g v)).sum = (l.map f).sum + (l.map g).sum := by
  induction l with
  | nil => simp
  | cons a t ih =>
    simp [ih]
    ring

/-- Expansion of a sum of squared shifted values. -/
theorem sum_sq_shift (l : List ℝ) (c : ℝ) :
    (l.map (fun x => (x - c) ^ 2)).sum =
      (l.map (fun x => x ^ 2)).sum - 2 * c * l.sum + (l.length : ℝ) * c ^ 2 := by
  induction l with
  | nil => simp
  | cons a t ih =>
    simp [ih]
    ring

/-- Shifting a list of reals by its mean does not increase the sum of
squares (the variance identity). -/
theorem sum_sq_sub_mean_le (l : List ℝ) :
    (l.map (fun x => (x - l.sum / (l.length : ℝ)) ^ 2)).sum ≤
      (l.map (fun x => x ^ 2)).sum := by
  rcases eq_or_ne l.length 0 with h0 | h0
  · rw [List.length_eq_zero] at h0
    subst h0
    simp
  · have hn : (0 : ℝ) < (l.length : ℝ) := by
      exact_mod_cast Nat.pos_of_ne_zero h0
    have hne : (l.length : ℝ) ≠ 0 := ne_of_gt hn
    rw [sum_sq_shift l (l.sum / (l.length : ℝ))]
    have h1 : -(2 * (l.sum / (l.length : ℝ)) * l.sum)
        + (l.length : ℝ) * (l.sum / (l.length : ℝ)) ^ 2
        = -(l.sum ^ 2 / (l.length : ℝ)) := by
      field_simp
      ring
    have h2 : 0 ≤ l.sum ^ 2 / (l.length : ℝ) :=
      div_nonneg (sq_nonneg _) (le_of_lt hn)
    linarith

/-- A list shifted by the negated mean is the list shifted down by the mean. -/
theorem shifted_sum_le (xs : List ℝ) (c : ℝ) (hc : c = -(xs.sum / (xs.length : ℝ))) :
    (xs.map (fun x => (x + c) ^ 2)).sum ≤ (xs.map (fun x => x ^ 2)).sum := by
  subst hc
  simpa [sub_eq_add_neg] using sum_sq_sub_mean_le xs

/-- The x-component of a vector sum. -/
theorem vsum_x (l : List Vec3r) : (vsum l).x = (l.map Vec3r.x).sum := by
  induction l with
  | nil => rfl
  | cons v t ih =>
    show (vadd v (vsum t)).x = (Vec3r.x v :: t.map Vec3r.x).sum
    rw [List.sum_cons, ← ih]
    rfl

/-- The y-component of a vector sum. -/
theorem vsum_y (l : List Vec3r) : (vsum l).y = (l.map Vec3r.y).sum := by
  induction l with
  | nil => rfl
  | cons v t ih =>
    show (vadd v (vsum t)).y = (Vec3r.y v :: t.map Vec3r.y).sum
    rw [List.sum_cons, ← ih]
    rfl

/-- The z-component of a vector sum. -/
theorem vsum_z (l : List Vec3r) : (vsum l).z = (l.map Vec3r.z).sum := by
  induction l with
  | nil => rfl
  | cons v t ih =>
    show (vadd v (vsum t)).z = (Vec3r.z v :: t.map Vec3r.z).sum
    rw [List.sum_cons, ← ih]
    rfl

/-- Length of the deviation list of equal-length pairings. -/
theorem deviations_length (a b : List Vec3r) (h : a.length = b.length) :
    (deviations a b).length = a.length := by
  simp [deviations, h]

/-- Componentwise sums of the deviation list. -/
theorem deviations_map_sum (f : Vec3r → ℝ) (hf : ∀ p q, f (vsub q p) = f q - f p) :
    ∀ (a b : List Vec3r), a.length = b.length →
      ((deviations a b).map f).sum = (b.map f).sum - (a.map f).sum := by
  intro a
  induction a with
  | nil =>
    intro b hb
    have hb0 : b = [] := List.length_eq_zero.mp hb.symm
    subst hb0
    simp [deviations]
  | cons p t ih =>
    intro b hb
    cases b with
    | nil => simp at hb
    | cons q u =>
      have hlen : t.length = u.length := by simpa using hb
      rw [show deviations (p :: t) (q :: u) = vsub q p :: deviations t u from rfl]
      simp only [List.map_cons, List.sum_cons]
      rw [hf, ih u hlen]
      ring

/-- The sum of squared deviations after translating `b` splits into three
coordinate sums of squared shifted deviations. -/
theorem sumSqDev_translate (a b : List Vec3r) (t : Vec3r) :
    sumSqDev a (b.map (fun v => vadd v t)) =
      (((deviations a b).map Vec3r.x).map (fun x => (x + t.x) ^ 2)).sum
      + (((deviations a b).map Vec3r.y).map (fun y => (y + t.y) ^ 2)).sum
      + (((deviations a b).map Vec3r.z).map (fun z => (z + t.z) ^ 2)).sum := by
  unfold sumSqDev deviations
  rw [List.zipWith_map_right]
  have h1 : (fun (p q : Vec3r) => vsub (vadd q t) p) = fun p q => vadd (vsub q p) t := by
    funext p q
    simp only [vsub, vadd, Vec3r.mk.injEq]
    refine ⟨by ring, by ring, by ring⟩
  rw [h1]
  rw [show List.zipWith (fun (p q : Vec3r) => vadd (vsub q p) t) a b
        = (List.zipWith (fun (p q : Vec3r) => vsub q p) a b).map (fun d => vadd d t) from
      (List.map_zipWith (fun d => vadd d t) (fun (p q : Vec3r) => vsub q p) a b).symm]
  rw [List.map_map]
  have h2 : (normSq ∘ fun d => vadd d t)
      = fun d : Vec3r => ((d.x + t.x) ^ 2 + (d.y + t.y) ^ 2) + (d.z + t.z) ^ 2 := by
    funext d
    simp [normSq, vadd, Function.comp]
  rw [h2, sum_map_add, sum_map_add]
  simp only [List.map_map]
  rfl

/-- The sum of squared deviations splits into three coordinate sums. -/
theorem sumSqDev_decomp (a b : List Vec3r) :
    sumSqDev a b =
      (((deviations a b).map Vec3r.x).map (fun x => x ^ 2)).sum
      + (((deviations a b).map Vec3r.y).map (fun y => y ^ 2)).sum
      + (((deviations a b).map Vec3r.z).map (fun z => z ^ 2)).sum := by
  unfold sumSqDev
  have h2 : (normSq : Vec3r → ℝ) = fun d => (d.x ^ 2 + d.y ^ 2) + d.z ^ 2 := by
    funext d
    simp [normSq]
  rw [h2, sum_map_add, sum_map_add]
  simp only [List.map_map]
  rfl

/-- Applying the affine translation matrix moves a point by the translation. -/
theorem transformMat4_translation (t v : Vec3r) :
    transformMat4 (translationMat4 t) v = vadd v t := by
  have hw : mat4W (translationMat4 t) v = 1 := by
    simp [mat4W, translationMat4]
  simp only [transformMat4, hw]
  simp [translationMat4, vadd]

/-- Translating `b` by the centroid difference does not increase the sum of
squared deviations. -/
theorem sumSqDev_centroid_le (a b : List Vec3r) (hlen : a.length = b.length) :
    sumSqDev a (b.map (fun v => vadd v (vsub (centroid a) (centroid b)))) ≤
      sumSqDev a b := by
  rw [sumSqDev_translate a b (vsub (centroid a) (centroid b)), sumSqDev_decomp a b]
  have hdlen : ∀ f : Vec3r → ℝ, ((deviations a b).map f).length = a.length := by
    intro f
    rw [List.length_map]
    exact deviations_length a b hlen
  have htx : (vsub (centroid a) (centroid b)).x
      = -(((deviations a b).map Vec3r.x).sum / (((deviations a b).map Vec3r.x).length : ℝ)) := by
    rw [deviations_map_sum Vec3r.x (fun p q => rfl) a b hlen, hdlen]
    simp only [vsub, centroid]
    rw [vsum_x a, vsum_x b, ← hlen]
    ring
  have hty : (vsub (centroid a) (centroid b)).y
      = -(((deviations a b).map Vec3r.y).sum / (((deviations a b).map Vec3r.y).length : ℝ)) := by
    rw [deviations_map_sum Vec3r.y (fun p q => rfl) a b hlen, hdlen]
    simp only [vsub, centroid]
    rw [vsum_y a, vsum_y b, ← hlen]
    ring
  have htz : (vsub (centroid a) (centroid b)).z
      = -(((deviations a b).map Vec3r.z).sum / (((deviations a b).map Vec3r.z).length : ℝ)) := by
    rw [deviations_map_sum Vec3r.z (fun p q => rfl) a b hlen, hdlen]
    simp only [vsub, centroid]
    rw [vsum_z a, vsum_z b, ← hlen]
    ring
  exact add_le_add (add_le_add (shifted_sum_le _ _ htx) (shifted_sum_le _ _ hty))
    (shifted_sum_le _ _ htz)

/-! ## C8: pairwise superposition output -/

/-- C8: for two equal-length, non-empty paired chain-trace coordinate lists
from two structures, the pairwise superposition output contains an RMSD
value ≥ 0 and a 4×4 affine transform; that RMSD is the RMSD recomputed on
the aligned coordinates, and applying the transform to the second structure
and recomputing the root-mean-square deviation yields an RMSD ≤ the
pre-alignment value. -/
theorem superpose_rmsd_nonneg_and_improves (a b : List Vec3r)
    (hlen : a.length = b.length) (hne : a ≠ []) :
    0 ≤ (superpose a b).rmsd
    ∧ (superpose a b).rmsd = rmsdOf a (b.map (transformMat4 (superpose a b).bTransform))
    ∧ rmsdOf a (b.map (transformMat4 (superpose a b).bTransform)) ≤ rmsdOf a b := by
  have hmap : b.map (transformMat4 (superpose a b).bTransform)
      = b.map (fun v => vadd v (vsub (centroid a) (centroid b))) := by
    simp only [superpose]
    exact List.map_congr_left (fun v _ => transformMat4_translation _ v)
  refine ⟨Real.sqrt_nonneg _, ?_, ?_⟩
  · rw [hmap]
    rfl
  · rw [hmap]
    unfold rmsdOf
    apply Real.sqrt_le_sqrt
    unfold msd
    have hn : (0 : ℝ) < (a.length : ℝ) := by
      exact_mod_cast List.length_pos.mpr hne
    exact (div_le_div_iff_of_pos_right hn).mpr (sumSqDev_centroid_le a b hlen)

/-- Witness for C8 at the concrete pair `[(0,0,0)]`, `[(1,0,0)]`. -/
theorem superpose_rmsd_nonneg_and_improves_witness :
    0 ≤ (superpose [Vec3r.mk 0 0 0] [Vec3r.mk 1 0 0]).rmsd
    ∧ (superpose [Vec3r.mk 0 0 0] [Vec3r.mk 1 0 0]).rmsd =
        rmsdOf [Vec3r.mk 0 0 0]
          ([Vec3r.mk 1 0 0].map
            (transformMat4 (superpose [Vec3r.mk 0 0 0] [Vec3r.mk 1 0 0]).bTransform))
    ∧ rmsdOf [Vec3r.mk 0 0 0]
          ([Vec3r.mk 1 0 0].map
            (transformMat4 (superpose [Vec3r.mk 0 0 0] [Vec3r.mk 1 0 0]).bTransform)) ≤
        rmsdOf [Vec3r.mk 0 0 0] [Vec3r.mk 1 0 0] :=
  superpose_rmsd_nonneg_and_improves [Vec3r.mk 0 0 0] [Vec3r.mk 1 0 0] rfl
    (by simp)
